import Mathlib

/-!
Verification of the Monetrax tax-computation and subscription-entitlement
engine against its specification.

The repository ships the React frontend; the client-side entitlement
checks (`checkFeatureAccess`, `checkTransactionLimit`) are embedded
directly from `src/frontend/src/App.js` and the standalone
SubscriptionContext module.  The FastAPI backend (TaxCalculator,
VatExemptionClassifier, PromotionalPricingService, SubscriptionLifecycle)
is not part of the repository snapshot, so those components are modelled
from the specification, as marked on each definition.
-/

/-- A JavaScript value as it appears in the subscription feature table:
booleans, numbers (modelled as rationals) or strings. -/
inductive JSVal where
  | bool (b : Bool)
  | num (q : ℚ)
  | str (s : String)
deriving DecidableEq

/-- Client-side subscription snapshot returned by
`GET /api/subscriptions/current`, as consumed by the provider code:
only the fields the checks read are modelled.  `features` is optional
because the code guards the access with `?.`. -/
structure ClientSubscription where
  tier : String
  tier_name : String
  features : Option (List (String × JSVal))
deriving DecidableEq

/-- Per-tenant transactions usage block of the
`GET /api/subscriptions/usage` response. -/
structure TransactionsUsage where
  unlimited : Bool
  used : ℚ
  limit : ℚ
  remaining : ℚ
deriving DecidableEq

/-- Client-side usage snapshot; `transactions` is the block destructured
by `checkTransactionLimit`. -/
structure ClientUsage where
  transactions : TransactionsUsage
deriving DecidableEq

/-- Result object of `checkTransactionLimit`: the `canAdd` flag plus the
optional echo of the usage numbers (absent on the fail-open and
unlimited branches, which return only `{ canAdd: true }`). -/
structure LimitCheck where
  canAdd : Bool
  used : Option ℚ
  limit : Option ℚ
  remaining : Option ℚ
deriving DecidableEq

/-- Embedded from `src/unnamed/part_001` (SubscriptionContext module),
`checkFeatureAccess`: returns `false` when the subscription is not
loaded, otherwise evaluates `subscription.features?.[feature] === true`
— a strict equality against the boolean `true`. -/
def SubscriptionContext.checkFeatureAccess
    (subscription : Option ClientSubscription) (feature : String) : Bool :=
  match subscription with
  | none => false
  | some sub =>
    match sub.features with
    | none => false
    | some fs =>
      match List.lookup feature fs with
      | some (JSVal.bool true) => true
      | _ => false

/-- Embedded from `src/unnamed/part_001` (SubscriptionContext module),
`checkTransactionLimit`: `{ canAdd: true }` when usage is not loaded or
the plan is unlimited, otherwise `canAdd = used < limit` with the usage
numbers echoed back. -/
def SubscriptionContext.checkTransactionLimit
    (usage : Option ClientUsage) : LimitCheck :=
  match usage with
  | none => { canAdd := true, used := none, limit := none, remaining := none }
  | some u =>
    let t := u.transactions
    if t.unlimited then
      { canAdd := true, used := none, limit := none, remaining := none }
    else
      { canAdd := decide (t.used < t.limit)
        used := some t.used
        limit := some t.limit
        remaining := some t.remaining }

/-- Embedded from `src/frontend/src/App.js` lines 1010–1013: the copy of
`checkFeatureAccess` duplicated inside the App.js SubscriptionProvider. -/
def AppJs.checkFeatureAccess
    (subscription : Option ClientSubscription) (feature : String) : Bool :=
  match subscription with
  | none => false
  | some sub =>
    match sub.features with
    | none => false
    | some fs =>
      match List.lookup feature fs with
      | some (JSVal.bool true) => true
      | _ => false

/-- Embedded from `src/frontend/src/App.js` lines 1015–1025: the copy of
`checkTransactionLimit` duplicated inside the App.js
SubscriptionProvider. -/
def AppJs.checkTransactionLimit
    (usage : Option ClientUsage) : LimitCheck :=
  match usage with
  | none => { canAdd := true, used := none, limit := none, remaining := none }
  | some u =>
    let t := u.transactions
    if t.unlimited then
      { canAdd := true, used := none, limit := none, remaining := none }
    else
      { canAdd := decide (t.used < t.limit)
        used := some t.used
        limit := some t.limit
        remaining := some t.remaining }

/-- Truthiness of a feature value as the specification words it for
`use_feature`: `false`/`0` denies, `true`, a positive number, or the
unlimited marker allows. -/
def truthyFeatureValue : JSVal → Bool
  | JSVal.bool b => b
  | JSVal.num q => decide (0 < q)
  | JSVal.str s => s == "unlimited"

/-- The feature value the tier's feature table holds for a feature name,
through the same optional accesses the code performs. -/
def featureValueOf
    (subscription : Option ClientSubscription) (feature : String) : Option JSVal :=
  match subscription with
  | none => none
  | some sub =>
    match sub.features with
    | none => none
    | some fs => List.lookup feature fs

/-- The feature-access predicate the specification describes: allowed iff
the feature's value in the tier's feature table is truthy. -/
def specFeatureAccess
    (subscription : Option ClientSubscription) (feature : String) : Bool :=
  match featureValueOf subscription feature with
  | none => false
  | some v => truthyFeatureValue v

/-- Concrete subscription snapshot whose feature table holds a positive
integer-valued feature, exercising the quota-style feature values. -/
def subWithIntFeature : ClientSubscription :=
  { tier := "starter"
    tier_name := "Starter"
    features := some [("transactions_per_month", JSVal.num 200)] }

/-- Concrete finite-limit usage snapshot at its quota boundary. -/
def usageAtBoundary : ClientUsage :=
  { transactions := { unlimited := false, used := 50, limit := 50, remaining := 0 } }

/-- Concrete usage snapshot on an unlimited plan. -/
def unlimitedUsage : ClientUsage :=
  { transactions := { unlimited := true, used := 1000, limit := 0, remaining := 0 } }

/-! ## Tax engine, modelled from the spec -/

/-- Modelled from the spec: one progressive income-tax bracket of
`TaxRuleSet.income_tax_brackets` (§3); `upper = none` is the unbounded
final bracket.  The backend tax engine behind `/api/admin/tax-rules` and
`/api/tax/summary` is not under `src/`. -/
structure TaxBracket where
  upper : Option ℚ
  rate : ℚ
deriving DecidableEq

/-- Modelled from the spec: the `TaxRuleSet` configuration record (§3).
The backend tax engine is not under `src/`. -/
structure TaxRuleSet where
  vat_rate : ℚ
  tax_free_threshold : ℚ
  income_tax_brackets : List TaxBracket
  exempt_categories : List String
  exempt_keywords : List String
deriving DecidableEq

/-- Transaction kind: income or expense. -/
inductive TxnType where
  | income
  | expense
deriving DecidableEq

/-- Modelled from the spec: the `Transaction` record (§3) restricted to
the fields the tax computation reads; `date` is a day number for the
inclusive period filter.  The backend transaction store is not under
`src/`. -/
structure Transaction where
  type : TxnType
  category : String
  amount : ℚ
  is_taxable : Bool
  description : String
  date : ℤ
deriving DecidableEq

/-- Whether `needle` occurs as a contiguous sublist of the second list. -/
def isInfixList (needle : List Char) : List Char → Bool
  | [] => needle.isEmpty
  | c :: t => needle.isPrefixOf (c :: t) || isInfixList needle t

/-- The characters of a string, lowercased. -/
def lowerChars (s : String) : List Char :=
  s.toList.map Char.toLower

/-- Case-insensitive substring containment, for exempt-keyword matching. -/
def containsCI (haystack needle : String) : Bool :=
  isInfixList (lowerChars needle) (lowerChars haystack)

/-- Modelled from the spec: `VatExemptionClassifier.is_exempt` (§4.1) —
exempt iff the category matches a configured exempt category
(case-insensitive exact match) or the description contains a configured
exempt keyword (case-insensitive substring).  The backend classifier is
not under `src/`. -/
def is_exempt (t : Transaction) (rs : TaxRuleSet) : Bool :=
  rs.exempt_categories.any (fun c => lowerChars c == lowerChars t.category) ||
  rs.exempt_keywords.any (fun k => containsCI t.description k)

/-- A transaction accrues VAT iff it is of the given type, flagged
taxable, and not exempt (§4.1, §4.2). -/
def vatApplicable (side : TxnType) (t : Transaction) (rs : TaxRuleSet) : Bool :=
  t.type == side && t.is_taxable && !(is_exempt t rs)

/-- Modelled from the spec: `vat_collected` (§4.2) — the sum of
`amount × vat_rate` over income transactions that are taxable and not
exempt. -/
def vat_collected (ts : List Transaction) (rs : TaxRuleSet) : ℚ :=
  ((ts.filter (fun t => vatApplicable TxnType.income t rs)).map
    (fun t => t.amount * rs.vat_rate)).sum

/-- Modelled from the spec: `vat_paid` (§4.2) — the sum of
`amount × vat_rate` over expense transactions that are taxable and not
exempt, treated as input-VAT credit. -/
def vat_paid (ts : List Transaction) (rs : TaxRuleSet) : ℚ :=
  ((ts.filter (fun t => vatApplicable TxnType.expense t rs)).map
    (fun t => t.amount * rs.vat_rate)).sum

/-- Modelled from the spec: `net_vat = max(vat_collected − vat_paid, 0)`
(§4.2). -/
def net_vat (ts : List Transaction) (rs : TaxRuleSet) : ℚ :=
  max (vat_collected ts rs - vat_paid ts rs) 0

/-- Sum of income amounts (§4.2 `gross_income`). -/
def gross_income (ts : List Transaction) : ℚ :=
  ((ts.filter (fun t => t.type == TxnType.income)).map (fun t => t.amount)).sum

/-- Sum of expense amounts (§4.2 `gross_expenses`). -/
def gross_expenses (ts : List Transaction) : ℚ :=
  ((ts.filter (fun t => t.type == TxnType.expense)).map (fun t => t.amount)).sum

/-- Modelled from the spec:
`taxable_profit = max(gross_income − gross_expenses − tax_free_threshold, 0)`
(§4.2). -/
def taxable_profit (ts : List Transaction) (rs : TaxRuleSet) : ℚ :=
  max (gross_income ts - gross_expenses ts - rs.tax_free_threshold) 0

/-- Modelled from the spec: the marginal-bracket walk (§4.2) — each
bracket taxes the portion of the profit lying between the running lower
bound and its upper bound at its own rate; the unbounded bracket taxes
everything above the lower bound. -/
def bracketWalk (lower : ℚ) : List TaxBracket → ℚ → ℚ
  | [], _ => 0
  | b :: bs, p =>
    match b.upper with
    | some u => b.rate * max 0 (min p u - lower) + bracketWalk u bs p
    | none => b.rate * max 0 (p - lower) + bracketWalk lower bs p

/-- Modelled from the spec: the progressive `income_tax_estimate` of a
taxable profit under a ruleset's brackets (§4.2). -/
def income_tax_estimate (p : ℚ) (rs : TaxRuleSet) : ℚ :=
  bracketWalk 0 rs.income_tax_brackets p

/-- Modelled from the spec: the `TaxSummary` output record of
`TaxCalculator.summarize` (§4.2). -/
structure TaxSummary where
  vat_collected : ℚ
  vat_paid : ℚ
  net_vat : ℚ
  gross_income : ℚ
  gross_expenses : ℚ
  taxable_profit : ℚ
  income_tax_estimate : ℚ
  total_tax_due : ℚ
deriving DecidableEq

/-- Inclusive period membership for the §4.2 period filter. -/
def inPeriod (pstart pend : ℤ) (t : Transaction) : Bool :=
  decide (pstart ≤ t.date) && decide (t.date ≤ pend)

/-- Modelled from the spec: `TaxCalculator.summarize` (§4.2) — filter to
the inclusive period, compute the VAT aggregates, the taxable profit,
the progressive income-tax estimate, and
`total_tax_due = net_vat + income_tax_estimate`.  The backend behind
`GET /api/tax/summary` is not under `src/`. -/
def summarize (ts : List Transaction) (rs : TaxRuleSet) (pstart pend : ℤ) : TaxSummary :=
  let fts := ts.filter (inPeriod pstart pend)
  let tp := taxable_profit fts rs
  { vat_collected := vat_collected fts rs
    vat_paid := vat_paid fts rs
    net_vat := net_vat fts rs
    gross_income := gross_income fts
    gross_expenses := gross_expenses fts
    taxable_profit := tp
    income_tax_estimate := income_tax_estimate tp rs
    total_tax_due := net_vat fts rs + income_tax_estimate tp rs }

/-- Bracket-list validity from the lower bound `lower` upward: bounded
brackets have strictly increasing upper bounds and fraction rates, and
exactly the final bracket is unbounded (§3 coverage invariant; rates are
fractions per the data model). -/
def validFrom (lower : ℚ) : List TaxBracket → Bool
  | [] => false
  | b :: bs =>
    match b.upper with
    | none => bs.isEmpty && decide (0 ≤ b.rate) && decide (b.rate ≤ 1)
    | some u =>
      decide (lower < u) && decide (0 ≤ b.rate) && decide (b.rate ≤ 1) &&
        validFrom u bs

/-- Modelled from the spec: the §3 bracket coverage invariant — brackets
cover `[0, ∞)` with strictly increasing bounds and exactly one unbounded
final bracket, each rate a fraction. -/
def bracketsValid (bs : List TaxBracket) : Bool :=
  validFrom 0 bs

/-- The ruleset of the §8 scenario: VAT 7.5%, threshold 800,000,
brackets 7% to 300,000, 11% to 600,000, 15% above, no exemptions. -/
def scenarioRuleSet : TaxRuleSet :=
  { vat_rate := 3/40
    tax_free_threshold := 800000
    income_tax_brackets :=
      [{ upper := some 300000, rate := 7/100 }
      , { upper := some 600000, rate := 11/100 }
      , { upper := none, rate := 15/100 }]
    exempt_categories := []
    exempt_keywords := [] }

/-- The transaction set of the §8 scenario: taxable non-exempt income
1,500,000 and expenses 300,000 inside the queried period. -/
def scenarioTxns : List Transaction :=
  [{ type := TxnType.income, category := "Sales", amount := 1500000
     is_taxable := true, description := "sales revenue", date := 10 }
  ,{ type := TxnType.expense, category := "Supplies", amount := 300000
     is_taxable := true, description := "supplies purchase", date := 12 }]

/-- A ruleset whose exempt-category table contains `Medical`, per the
VAT-exempt category table of `src/docs/MONETRAX_SUBSCRIPTION_TIERS.md`. -/
def medicalRuleSet : TaxRuleSet :=
  { vat_rate := 3/40
    tax_free_threshold := 800000
    income_tax_brackets :=
      [{ upper := some 300000, rate := 7/100 }
      , { upper := some 600000, rate := 11/100 }
      , { upper := none, rate := 15/100 }]
    exempt_categories := ["Medical"]
    exempt_keywords := [] }

/-- A taxable-flagged income transaction in category `Medical`. -/
def medicalTxn : Transaction :=
  { type := TxnType.income, category := "Medical", amount := 100000
    is_taxable := true, description := "clinic services", date := 5 }

/-! ## Promotional pricing service, modelled from the spec -/

/-- A tenant identifier as submitted to the promo service: an email or a
phone number. -/
inductive Identifier where
  | email (s : String)
  | phone (s : String)
deriving DecidableEq

/-- Modelled from the spec: identifier normalization (§4.5) — emails are
lowercased, phone numbers reduced to their digits.  The backend behind
`/api/agent/signup-user` is not under `src/`. -/
def normalize_identifier : Identifier → String
  | Identifier.email s => String.mk (lowerChars s)
  | Identifier.phone s => String.mk (s.toList.filter Char.isDigit)

/-- Modelled from the spec: the `PromoSignup` record (§3), keyed by the
normalized tenant identifier. -/
structure PromoSignup where
  tenant_identifier : String
  agent_tag : String
  tier : String
  promo_price : ℚ
  savings : ℚ
deriving DecidableEq

/-- A promo issuance request: the raw identifier plus the signup data. -/
structure PromoRequest where
  ident : Identifier
  agent_tag : String
  tier : String
  promo_price : ℚ
  savings : ℚ
deriving DecidableEq

/-- Outcome of `issue_promo`: a created signup, or denial with
`already_used_promo`. -/
inductive IssueResult where
  | issued (s : PromoSignup)
  | denied_already_used_promo
deriving DecidableEq

/-- Whether a signup already exists for a normalized identifier. -/
def hasSignupFor (st : List PromoSignup) (nid : String) : Bool :=
  st.any (fun s => s.tenant_identifier == nid)

/-- Modelled from the spec: `PromotionalPricingService.issue_promo`
(§4.5) — deny with `already_used_promo` when a `PromoSignup` already
exists for the normalized identifier, otherwise record a new
`PromoSignup` under the normalized identifier.  The backend service is
not under `src/`. -/
def issue_promo (st : List PromoSignup) (r : PromoRequest) :
    IssueResult × List PromoSignup :=
  let nid := normalize_identifier r.ident
  if hasSignupFor st nid then
    (IssueResult.denied_already_used_promo, st)
  else
    let s : PromoSignup :=
      { tenant_identifier := nid, agent_tag := r.agent_tag, tier := r.tier
        promo_price := r.promo_price, savings := r.savings }
    (IssueResult.issued s, s :: st)

/-- Runs a sequence of promo issuance requests from a starting store. -/
def runPromos (st : List PromoSignup) : List PromoRequest → List PromoSignup
  | [] => st
  | r :: rs => runPromos (issue_promo st r).2 rs

/-- A concrete promo request used to exercise the service. -/
def promoReq : PromoRequest :=
  { ident := Identifier.email "Jane.Doe@Example.COM", agent_tag := "JD"
    tier := "starter", promo_price := 1500, savings := 500 }

/-! ## Subscription lifecycle, modelled from the spec -/

/-- Subscription tier. -/
inductive Tier where
  | free
  | starter
  | business
  | enterprise
deriving DecidableEq

/-- Billing cycle. -/
inductive BillingCycle where
  | monthly
  | yearly
deriving DecidableEq

/-- Subscription status. -/
inductive SubStatus where
  | active
  | cancelling
  | cancelled
deriving DecidableEq

/-- Modelled from the spec: the per-tenant `Subscription` record (§3)
restricted to the fields the lifecycle events touch.  The backend
lifecycle handler is not under `src/`. -/
structure SubscriptionRecord where
  tier : Tier
  billing_cycle : BillingCycle
  status : SubStatus
  had_paid_subscription : Bool
deriving DecidableEq

/-- A lifecycle operation on a tenant's subscription: promo issuance
(§4.5) or a billing event (§4.6). -/
inductive LifecycleOp where
  | promo_issued (t : Tier) (c : BillingCycle)
  | checkout_completed (t : Tier) (c : BillingCycle)
  | renewed
  | cancellation_requested
  | cancellation_effective
deriving DecidableEq

/-- Modelled from the spec: the effect of one lifecycle operation on the
subscription record (§4.5, §4.6) — promo issuance, checkout and renewal
activate the paid state and set `had_paid_subscription`;
`cancellation_requested` moves to `cancelling`;
`cancellation_effective` downgrades to the free tier.  No operation
clears `had_paid_subscription`.  The backend handler is not under
`src/`. -/
def apply_op (s : SubscriptionRecord) : LifecycleOp → SubscriptionRecord
  | LifecycleOp.promo_issued t c =>
    { s with tier := t, billing_cycle := c, status := SubStatus.active
             had_paid_subscription := true }
  | LifecycleOp.checkout_completed t c =>
    { s with tier := t, billing_cycle := c, status := SubStatus.active
             had_paid_subscription := true }
  | LifecycleOp.renewed =>
    { s with status := SubStatus.active, had_paid_subscription := true }
  | LifecycleOp.cancellation_requested =>
    { s with status := SubStatus.cancelling }
  | LifecycleOp.cancellation_effective =>
    { s with tier := Tier.free, status := SubStatus.active }

/-- Applies a sequence of lifecycle operations in order. -/
def apply_ops (s : SubscriptionRecord) : List LifecycleOp → SubscriptionRecord
  | [] => s
  | e :: es => apply_ops (apply_op s e) es

/-- A concrete paid subscription record. -/
def paidSub : SubscriptionRecord :=
  { tier := Tier.starter, billing_cycle := BillingCycle.monthly
    status := SubStatus.active, had_paid_subscription := true }

/-! ## Theorems -/

/-- C10: the `checkFeatureAccess` and `checkTransactionLimit` copies
duplicated inside the App.js SubscriptionProvider are extensionally
equal to the functions of the same names in the standalone
SubscriptionContext module. -/
theorem provider_copies_extensionally_equal :
    (∀ s f, AppJs.checkFeatureAccess s f = SubscriptionContext.checkFeatureAccess s f) ∧
    (∀ u, AppJs.checkTransactionLimit u = SubscriptionContext.checkTransactionLimit u) :=
  ⟨fun _ _ => rfl, fun _ => rfl⟩

/-- C9: when the client-side usage snapshot is absent,
`checkTransactionLimit` returns `{ canAdd: true }` — the gate fails open
and permits submission without consulting any limit. -/
theorem checkTransactionLimit_fails_open_on_missing_usage :
    SubscriptionContext.checkTransactionLimit none =
      { canAdd := true, used := none, limit := none, remaining := none } :=
  rfl

/-- C1 counterexample: a subscription whose feature table stores the
positive integer `200` for `transactions_per_month` is truthy by the
spec's stated semantics, yet the frontend `checkFeatureAccess` denies
it, because the code compares with strict equality against `true`. -/
theorem checkFeatureAccess_truthy_counterexample :
    SubscriptionContext.checkFeatureAccess (some subWithIntFeature)
        "transactions_per_month" = false ∧
    featureValueOf (some subWithIntFeature) "transactions_per_month" =
        some (JSVal.num 200) ∧
    truthyFeatureValue (JSVal.num 200) = true := by
  decide

/-- C1 amended: the frontend feature-access check allows a feature iff
the feature's stored value is exactly the boolean `true`; numeric
values (including positive ones), string markers such as `unlimited`,
a missing entry, a missing feature table, and a missing subscription
all deny. -/
theorem checkFeatureAccess_allows_iff_bool_true
    (s : Option ClientSubscription) (f : String) :
    SubscriptionContext.checkFeatureAccess s f = true ↔
      featureValueOf s f = some (JSVal.bool true) := by
  cases s with
  | none => simp [SubscriptionContext.checkFeatureAccess, featureValueOf]
  | some sub =>
    cases hf : sub.features with
    | none => simp [SubscriptionContext.checkFeatureAccess, featureValueOf, hf]
    | some fs =>
      simp only [SubscriptionContext.checkFeatureAccess, featureValueOf, hf]
      cases hl : List.lookup f fs with
      | none => simp
      | some v =>
        cases v with
        | bool b => cases b <;> simp
        | num q => simp
        | str s => simp

/-- C2: with a loaded usage snapshot, the client-side transaction gate
denies exactly when the used count has reached a finite limit, and
always allows on an unlimited plan. -/
theorem checkTransactionLimit_finite_limit_gate (u : ClientUsage) :
    (u.transactions.unlimited = false →
      (((SubscriptionContext.checkTransactionLimit (some u)).canAdd = false) ↔
        u.transactions.limit ≤ u.transactions.used)) ∧
    (u.transactions.unlimited = true →
      (SubscriptionContext.checkTransactionLimit (some u)).canAdd = true) := by
  constructor
  · intro h
    simp [SubscriptionContext.checkTransactionLimit, h, not_lt]
  · intro h
    simp [SubscriptionContext.checkTransactionLimit, h]

/-- C2 witness: at the concrete boundary snapshot (used 50, limit 50)
the gate denies, and the concrete unlimited snapshot is allowed. -/
theorem checkTransactionLimit_finite_limit_gate_witness :
    (((SubscriptionContext.checkTransactionLimit (some usageAtBoundary)).canAdd = false) ↔
      usageAtBoundary.transactions.limit ≤ usageAtBoundary.transactions.used) ∧
    (SubscriptionContext.checkTransactionLimit (some unlimitedUsage)).canAdd = true :=
  ⟨(checkTransactionLimit_finite_limit_gate usageAtBoundary).1 (by decide),
   (checkTransactionLimit_finite_limit_gate unlimitedUsage).2 (by decide)⟩

/-- C4: on the §8 scenario ruleset (VAT 7.5%, threshold 800,000,
brackets 7%/11%/15%) and the scenario transactions (taxable non-exempt
income 1,500,000, expenses 300,000), the tax summary returns
vat_collected 112,500, vat_paid 22,500, net_vat 90,000, taxable_profit
400,000, income_tax_estimate 32,000 and total_tax_due 122,000. -/
theorem taxSummary_scenario_values :
    (summarize scenarioTxns scenarioRuleSet 0 31).vat_collected = 112500 ∧
    (summarize scenarioTxns scenarioRuleSet 0 31).vat_paid = 22500 ∧
    (summarize scenarioTxns scenarioRuleSet 0 31).net_vat = 90000 ∧
    (summarize scenarioTxns scenarioRuleSet 0 31).taxable_profit = 400000 ∧
    (summarize scenarioTxns scenarioRuleSet 0 31).income_tax_estimate = 32000 ∧
    (summarize scenarioTxns scenarioRuleSet 0 31).total_tax_due = 122000 := by
  refine ⟨?_, ?_, ?_, ?_, ?_, ?_⟩ <;>
  · simp only [summarize, vat_collected, vat_paid, net_vat, gross_income,
      gross_expenses, taxable_profit, income_tax_estimate, bracketWalk,
      vatApplicable, is_exempt, inPeriod, scenarioTxns, scenarioRuleSet]
    norm_num [inPeriod, List.filter_cons,
      show (TxnType.income = TxnType.expense) ↔ False from
        Iff.intro (fun h => nomatch h) False.elim,
      show (TxnType.expense = TxnType.income) ↔ False from
        Iff.intro (fun h => nomatch h) False.elim]

/-- C6: for every transaction set, ruleset and period, the summary's
`net_vat` equals `max(vat_collected - vat_paid, 0)` and is therefore
never negative, including when the input-VAT credit exceeds the VAT
collected. -/
theorem net_vat_eq_clamped_and_nonneg
    (ts : List Transaction) (rs : TaxRuleSet) (p1 p2 : ℤ) :
    (summarize ts rs p1 p2).net_vat =
      max ((summarize ts rs p1 p2).vat_collected -
           (summarize ts rs p1 p2).vat_paid) 0 ∧
    0 ≤ (summarize ts rs p1 p2).net_vat :=
  ⟨rfl, le_max_right _ _⟩

/-- C7: exemption overrides the taxable flag — an exempt transaction
contributes nothing to `vat_collected` or `vat_paid` whatever its
`is_taxable` flag; in particular the concrete `Medical`-category
transaction flagged taxable is classified exempt and yields a zero
`vat_collected`. -/
theorem exempt_overrides_taxable :
    (∀ (t : Transaction) (ts : List Transaction) (rs : TaxRuleSet),
      is_exempt t rs = true →
        vat_collected (t :: ts) rs = vat_collected ts rs ∧
        vat_paid (t :: ts) rs = vat_paid ts rs) ∧
    (is_exempt medicalTxn medicalRuleSet = true ∧
      medicalTxn.is_taxable = true ∧
      vat_collected [medicalTxn] medicalRuleSet = 0) := by
  constructor
  · intro t ts rs h
    constructor <;>
      simp [vat_collected, vat_paid, vatApplicable, List.filter_cons, h]
  · exact ⟨by decide, by decide, by decide⟩

/-- C7 witness: applying the exemption-override theorem to the concrete
`Medical` transaction shows it adds nothing to the VAT-collected sum. -/
theorem exempt_overrides_taxable_witness :
    vat_collected [medicalTxn] medicalRuleSet =
      vat_collected [] medicalRuleSet :=
  (exempt_overrides_taxable.1 medicalTxn [] medicalRuleSet (by decide)).1

/-- Helper for C8: no single lifecycle operation clears
`had_paid_subscription`. -/
theorem apply_op_keeps_had_paid (s : SubscriptionRecord) (e : LifecycleOp)
    (h : s.had_paid_subscription = true) :
    (apply_op s e).had_paid_subscription = true := by
  cases e <;> simp [apply_op, h]

/-- C8: `had_paid_subscription` is monotone — once true, no sequence of
lifecycle operations (promo issuance, checkout, renewal, cancellation,
downgrade to free, re-upgrade) ever sets it back to false. -/
theorem had_paid_subscription_monotone (s : SubscriptionRecord)
    (es : List LifecycleOp) (h : s.had_paid_subscription = true) :
    (apply_ops s es).had_paid_subscription = true := by
  induction es generalizing s with
  | nil => exact h
  | cons e es ih => exact ih (apply_op s e) (apply_op_keeps_had_paid s e h)

/-- C8 witness: a paid subscription keeps `had_paid_subscription` across
cancellation, the downgrade to free at period end, a re-upgrade and a
second downgrade. -/
theorem had_paid_subscription_monotone_witness :
    (apply_ops paidSub
      [LifecycleOp.cancellation_requested, LifecycleOp.cancellation_effective,
       LifecycleOp.checkout_completed Tier.business BillingCycle.monthly,
       LifecycleOp.cancellation_effective]).had_paid_subscription = true :=
  had_paid_subscription_monotone paidSub
    [LifecycleOp.cancellation_requested, LifecycleOp.cancellation_effective,
     LifecycleOp.checkout_completed Tier.business BillingCycle.monthly,
     LifecycleOp.cancellation_effective] (by decide)

/-- Helper for C3: membership of a normalized identifier in the signup
store, phrased through the identifier list. -/
theorem hasSignupFor_eq_true_iff (st : List PromoSignup) (nid : String) :
    hasSignupFor st nid = true ↔ nid ∈ st.map PromoSignup.tenant_identifier := by
  simp [hasSignupFor, List.any_eq_true, List.mem_map, beq_iff_eq]

/-- Helper for C3: one issuance step preserves distinctness of the
stored normalized identifiers. -/
theorem issue_promo_preserves_nodup (st : List PromoSignup) (r : PromoRequest)
    (h : (st.map PromoSignup.tenant_identifier).Nodup) :
    (((issue_promo st r).2).map PromoSignup.tenant_identifier).Nodup := by
  unfold issue_promo
  by_cases hc : hasSignupFor st (normalize_identifier r.ident) = true
  · simp [hc, h]
  · rw [Bool.not_eq_true] at hc
    simp only [hc, Bool.false_eq_true, if_false, List.map_cons, List.nodup_cons]
    refine ⟨?_, h⟩
    intro hmem
    rw [← hasSignupFor_eq_true_iff] at hmem
    rw [hmem] at hc
    exact Bool.true_eq_false.mp hc

/-- Helper for C3: an issuance step never removes an identifier from the
store. -/
theorem issue_promo_keeps_signup (st : List PromoSignup) (r : PromoRequest)
    (nid : String) (h : hasSignupFor st nid = true) :
    hasSignupFor ((issue_promo st r).2) nid = true := by
  unfold issue_promo
  by_cases hc : hasSignupFor st (normalize_identifier r.ident) = true
  · simpa [hc] using h
  · rw [Bool.not_eq_true] at hc
    simp only [hc, Bool.false_eq_true, if_false]
    have hcons :
        hasSignupFor
            ({ tenant_identifier := normalize_identifier r.ident
               agent_tag := r.agent_tag, tier := r.tier
               promo_price := r.promo_price, savings := r.savings } :: st) nid =
          ((normalize_identifier r.ident == nid) || hasSignupFor st nid) := rfl
    rw [hcons, h, Bool.or_true]

/-- Helper for C3: distinctness of stored identifiers is preserved by a
whole request sequence. -/
theorem runPromos_preserves_nodup (reqs : List PromoRequest) :
    ∀ st : List PromoSignup, (st.map PromoSignup.tenant_identifier).Nodup →
      ((runPromos st reqs).map PromoSignup.tenant_identifier).Nodup := by
  induction reqs with
  | nil => intro st h; exact h
  | cons r rs ih =>
    intro st h
    exact ih ((issue_promo st r).2) (issue_promo_preserves_nodup st r h)

/-- C3: per-identifier uniqueness of promo signups — every store reached
by a request sequence from the empty store holds pairwise distinct
normalized identifiers; a stored identifier survives any further
requests; and at a store that already holds the normalized identifier,
`issue_promo` is denied with `already_used_promo` and leaves the store
unchanged. -/
theorem promoSignup_exactly_once_per_identifier :
    (∀ reqs : List PromoRequest,
      ((runPromos [] reqs).map PromoSignup.tenant_identifier).Nodup) ∧
    (∀ (st : List PromoSignup) (more : List PromoRequest) (nid : String),
      hasSignupFor st nid = true → hasSignupFor (runPromos st more) nid = true) ∧
    (∀ (st : List PromoSignup) (r : PromoRequest),
      hasSignupFor st (normalize_identifier r.ident) = true →
        issue_promo st r = (IssueResult.denied_already_used_promo, st)) := by
  refine ⟨?_, ?_, ?_⟩
  · intro reqs
    exact runPromos_preserves_nodup reqs [] (by simp)
  · intro st more
    induction more generalizing st with
    | nil => intro nid h; exact h
    | cons r rs ih =>
      intro nid h
      exact ih ((issue_promo st r).2) nid (issue_promo_keeps_signup st r nid h)
  · intro st r h
    simp [issue_promo, h]

/-- C3 witness: after one issuance of the concrete email request, the
normalized identifier is present and re-issuing the identical request is
denied with `already_used_promo` without changing the store. -/
theorem promoSignup_exactly_once_per_identifier_witness :
    issue_promo (runPromos [] [promoReq]) promoReq =
      (IssueResult.denied_already_used_promo, runPromos [] [promoReq]) :=
  promoSignup_exactly_once_per_identifier.2.2 (runPromos [] [promoReq]) promoReq
    (by decide)

/-- Helper for C5: bracket validity forces every rate to be
non-negative. -/
theorem validFrom_rates_nonneg (bs : List TaxBracket) :
    ∀ lower : ℚ, validFrom lower bs = true → ∀ b ∈ bs, 0 ≤ b.rate := by
  induction bs with
  | nil =>
    intro lower h
    simp [validFrom] at h
  | cons b bs ih =>
    intro lower h c hc
    obtain ⟨u, r⟩ := b
    cases u with
    | none =>
      simp only [validFrom, Bool.and_eq_true, decide_eq_true_eq] at h
      rw [List.mem_cons] at hc
      rcases hc with rfl | hc
      · exact h.1.2
      · rw [List.isEmpty_iff] at h
        rw [h.1.1] at hc
        exact absurd hc (List.not_mem_nil c)
    | some u =>
      simp only [validFrom, Bool.and_eq_true, decide_eq_true_eq] at h
      rw [List.mem_cons] at hc
      rcases hc with rfl | hc
      · exact h.1.1.2
      · exact ih u h.2 c hc

/-- Helper for C5: for non-negative rates the bracket walk is monotone
in the profit, whatever the running lower bound. -/
theorem bracketWalk_monotone (bs : List TaxBracket) :
    ∀ lower : ℚ, (∀ b ∈ bs, 0 ≤ b.rate) →
      Monotone (fun p : ℚ => bracketWalk lower bs p) := by
  induction bs with
  | nil =>
    intro lower _ x y _
    simp [bracketWalk]
  | cons b bs ih =>
    intro lower hr x y hxy
    have hb : 0 ≤ b.rate := hr b (List.mem_cons_self b bs)
    have hrest : ∀ c ∈ bs, 0 ≤ c.rate := fun c hc => hr c (List.mem_cons_of_mem b hc)
    obtain ⟨u, r⟩ := b
    cases u with
    | none =>
      simp only [bracketWalk]
      exact add_le_add
        (mul_le_mul_of_nonneg_left
          (max_le_max le_rfl (sub_le_sub_right hxy lower)) hb)
        (ih lower hrest hxy)
    | some u =>
      simp only [bracketWalk]
      exact add_le_add
        (mul_le_mul_of_nonneg_left
          (max_le_max le_rfl (sub_le_sub_right (min_le_min hxy le_rfl) lower)) hb)
        (ih u hrest hxy)

/-- Helper for C5: the bracket walk is a continuous function of the
profit, whatever the brackets and the running lower bound. -/
theorem bracketWalk_continuous (bs : List TaxBracket) :
    ∀ lower : ℚ, Continuous (fun p : ℚ => bracketWalk lower bs p) := by
  induction bs with
  | nil =>
    intro lower
    simpa [bracketWalk] using continuous_const
  | cons b bs ih =>
    intro lower
    obtain ⟨u, r⟩ := b
    cases u with
    | none =>
      simp only [bracketWalk]
      exact (continuous_const.mul
        (continuous_const.max (continuous_id.sub continuous_const))).add
        (ih lower)
    | some u =>
      simp only [bracketWalk]
      exact (continuous_const.mul
        (continuous_const.max
          ((continuous_id.min continuous_const).sub continuous_const))).add
        (ih u)

/-- C5: for every ruleset whose brackets satisfy the coverage invariant,
the progressive income-tax estimate, computed by taxing the portion of
profit falling in each bracket at that bracket's rate and summing, is a
monotonically non-decreasing and continuous function of the taxable
profit. -/
theorem income_tax_monotone_continuous (rs : TaxRuleSet)
    (h : bracketsValid rs.income_tax_brackets = true) :
    Monotone (fun p : ℚ => income_tax_estimate p rs) ∧
    Continuous (fun p : ℚ => income_tax_estimate p rs) := by
  constructor
  · exact bracketWalk_monotone rs.income_tax_brackets 0
      (validFrom_rates_nonneg rs.income_tax_brackets 0 h)
  · exact bracketWalk_continuous rs.income_tax_brackets 0

/-- C5 witness: the scenario brackets are valid and the induced tax
function is monotone and continuous. -/
theorem income_tax_monotone_continuous_witness :
    bracketsValid scenarioRuleSet.income_tax_brackets = true ∧
    Monotone (fun p : ℚ => income_tax_estimate p scenarioRuleSet) ∧
    Continuous (fun p : ℚ => income_tax_estimate p scenarioRuleSet) :=
  ⟨by norm_num [bracketsValid, validFrom, scenarioRuleSet],
   (income_tax_monotone_continuous scenarioRuleSet
     (by norm_num [bracketsValid, validFrom, scenarioRuleSet])).1,
   (income_tax_monotone_continuous scenarioRuleSet
     (by norm_num [bracketsValid, validFrom, scenarioRuleSet])).2⟩
